import Mathlib

/-
  Verification of the spidermon monitor engine specification against the
  repository sources (src/spidermon/contrib/scrapy/monitors.py and
  src/examples/monitors.py), via a shallow embedding in Lean 4.

  The core engine (Monitor, MonitorSuite, rule and action adapters, trigger
  semantics) is not part of the provided sources; only its clients are.
  Those engine parts are modelled from the specification and carry a doc
  comment starting with "Modelled from the spec:".  Everything else is
  translated directly from the Python sources.
-/

namespace Spidermon

/-- Modelled from the spec: aggregate / per-node status of a monitor run
(spec section 4.4: Passed, Failed, Errored, Skipped). The engine code that
defines this is missing from src. -/
inductive Status where
  | passed
  | failed
  | errored
  | skipped
deriving DecidableEq, Repr

/-- Modelled from the spec: trigger enumeration attached to an Action
(spec section 3, Trigger: ALWAYS, PASSED, FAILED, ERROR). The engine code
is missing from src. -/
inductive Trigger where
  | always
  | passed
  | failed
  | error
deriving DecidableEq, Repr

/-- Modelled from the spec: outcome of one rule evaluation
(spec section 3, Outcome: Passed, Failed(message), Errored(message)). -/
inductive Outcome where
  | passed
  | failed (msg : String)
  | errored (msg : String)
deriving DecidableEq, Repr

def Outcome.isFailed : Outcome → Bool
  | .failed _ => true
  | _ => false

def Outcome.isErrored : Outcome → Bool
  | .errored _ => true
  | _ => false

/-- Modelled from the spec: monitor aggregate status accumulation
(spec section 4.4 step 3: any Errored makes the monitor errored; else any
Failed makes it failed; else passed). -/
def aggregate (outcomes : List Outcome) : Status :=
  if outcomes.any Outcome.isErrored then .errored
  else if outcomes.any Outcome.isFailed then .failed
  else .passed

/-- Modelled from the spec: whether an action with the given trigger fires
for a monitor whose aggregate status is given (spec section 4.4 step 5 and
section 8: ALWAYS fires regardless; PASSED iff passed; FAILED iff failed;
ERROR iff errored; a Skipped monitor fires only ALWAYS actions). -/
def triggerFires : Trigger → Status → Bool
  | .always, _ => true
  | .passed, .passed => true
  | .failed, .failed => true
  | .error, .errored => true
  | _, _ => false

/-- Modelled from the spec: a fact value in the FactContext
(spec section 3, FactContext maps string keys to values). -/
inductive Val where
  | int (i : Int)
  | str (s : String)
deriving DecidableEq, Repr

/-- Modelled from the spec: the read-only fact snapshot a rule evaluates
against (spec section 3, FactContext). -/
def FactContext := List (String × Val)

/-- Modelled from the spec: a normalized rule unit; its check either
returns a boolean or raises, modelled as Except (spec section 3,
RuleUnit). -/
structure RuleUnit where
  name : String
  check : FactContext → Except String Bool

/-- Modelled from the spec: a normalized action unit; its run operation may
raise, modelled as Except (spec section 3, ActionUnit). -/
structure ActionUnit where
  name : String
  trigger : Trigger
  run : Except String Unit

/-- Modelled from the spec: the action adapter default — an action
registered without an explicit trigger defaults to ALWAYS (spec section 3:
"Default is ALWAYS"). -/
def adaptAction (name : String) (trigger : Option Trigger)
    (run : Except String Unit) : ActionUnit :=
  { name := name, trigger := trigger.getD .always, run := run }

/-- Modelled from the spec: the check evaluator (spec section 4.3): a
raised condition becomes Errored, a returned false becomes Failed, true
becomes Passed; no exception escapes. -/
def evalCheck (ctx : FactContext) (r : RuleUnit) : Outcome :=
  match r.check ctx with
  | .error e => .errored e
  | .ok true => .passed
  | .ok false => .failed "check returned false"

/-- Result of one monitor run: aggregate status, per-rule outcomes in
order, names of the actions that fired, and captured action errors. -/
structure MonitorResult where
  status : Status
  ruleOutcomes : List Outcome
  firedActions : List String
  actionErrors : List String
deriving DecidableEq, Repr

/-- A monitor as the engine sees it: a configuration-validation step
(Except err Unit, error meaning NotConfigured), ordered rules and ordered
actions. -/
structure MonitorSpec where
  validation : Except String Unit
  rules : List RuleUnit
  actions : List ActionUnit

/-- Modelled from the spec: the rule outcomes recorded by Monitor.run
(spec section 4.4): none when validation raises NotConfigured, otherwise
one outcome per rule in order. -/
def Monitor.runOutcomes (m : MonitorSpec) (ctx : FactContext) : List Outcome :=
  match m.validation with
  | .error _ => []
  | .ok _ => m.rules.map (evalCheck ctx)

/-- Modelled from the spec: the aggregate status of one Monitor.run
(spec section 4.4): Skipped when validation raises NotConfigured,
otherwise accumulated from the rule outcomes. -/
def Monitor.runStatus (m : MonitorSpec) (ctx : FactContext) : Status :=
  match m.validation with
  | .error _ => .skipped
  | .ok _ => aggregate (m.rules.map (evalCheck ctx))

/-- Modelled from the spec: Monitor.run (spec section 4.4). If the
validation step raises NotConfigured the monitor is marked Skipped and no
rules execute; otherwise every rule is evaluated in order and the
aggregate status is accumulated. Then every action whose trigger matches
the aggregate status fires; an exception raised by an action is captured
into actionErrors and does not abort the run. -/
def Monitor.runModel (m : MonitorSpec) (ctx : FactContext) : MonitorResult :=
  let st := Monitor.runStatus m ctx
  let fired := m.actions.filter (fun a => triggerFires a.trigger st)
  { status := st
    ruleOutcomes := Monitor.runOutcomes m ctx
    firedActions := fired.map (fun a => a.name)
    actionErrors := fired.filterMap (fun a =>
      match a.run with
      | .error e => some (a.name ++ ": " ++ e)
      | .ok _ => none) }

/-- Modelled from the spec: MonitorSuite.run (spec section 4.5): executes
each child in declared order against the same FactContext; no child
outcome affects whether siblings run. -/
def Suite.runModel (children : List MonitorSpec) (ctx : FactContext) :
    List MonitorResult :=
  children.map (fun m => Monitor.runModel m ctx)

/-! ## Crawler settings

Modelled from the spec (section 6 and Design Notes: a configuration-lookup
capability with typed getters and caller-supplied defaults; the concrete
settings store is external to the repository). A setting value may be an
integer, a float (rational here) or a boolean; getint, getfloat and
getbool read a key with a fallback default, converting as needed. -/

/-- Modelled from the spec: one typed setting value. -/
inductive SettingValue where
  | int (i : Int)
  | float (q : Rat)
  | bool (b : Bool)
deriving DecidableEq, Repr

/-- Modelled from the spec: the crawler settings store, a key-value
mapping. -/
structure Settings where
  attributes : List (String × SettingValue)

/-- Membership test corresponding to the Python
`key in settings.attributes`. -/
def Settings.containsKey (s : Settings) (k : String) : Bool :=
  (s.attributes.lookup k).isSome

/-- Modelled from the spec: settings.getint with a default; numeric
conversion truncates a float and maps a boolean to 0 or 1. -/
def Settings.getint (s : Settings) (k : String) (d : Int) : Int :=
  match s.attributes.lookup k with
  | some (.int i) => i
  | some (.float q) => q.floor
  | some (.bool b) => if b then 1 else 0
  | none => d

/-- Modelled from the spec: settings.getfloat with a default. -/
def Settings.getfloat (s : Settings) (k : String) (d : Rat) : Rat :=
  match s.attributes.lookup k with
  | some (.int i) => (i : Rat)
  | some (.float q) => q
  | some (.bool b) => if b then 1 else 0
  | none => d

/-- Modelled from the spec: settings.getbool with a default. -/
def Settings.getbool (s : Settings) (k : String) (d : Bool) : Bool :=
  match s.attributes.lookup k with
  | some (.bool b) => b
  | some (.int i) => i != 0
  | some (.float q) => q != 0
  | none => d

/-! ## Stat monitors (src/spidermon/contrib/scrapy/monitors.py)

The job statistics consulted by the stat monitors are numeric; they are
embedded as a partial map from stat name to rational value. -/

/-- Job statistics: a partial map from stat name to numeric value. -/
def Stats := List (String × Rat)

/-- The six recognized assert types of BaseStatMonitor
(monitors.py, test_stat_monitor assertions table). -/
inductive AssertType where
  | gt
  | ge
  | lt
  | le
  | eq
  | ne
deriving DecidableEq, Repr

/-- The comparison performed by the assertion chosen via assert_type
(assertGreater, assertGreaterEqual, assertLess, assertLessEqual,
assertEqual, assertNotEqual). -/
def assertCompare (a : AssertType) (value threshold : Rat) : Bool :=
  match a with
  | .gt => value > threshold
  | .ge => value ≥ threshold
  | .lt => value < threshold
  | .le => value ≤ threshold
  | .eq => value = threshold
  | .ne => value ≠ threshold

/-- Outcome of one unittest-style test method: it passes, fails with a
message, or is skipped with a message (skipTest). -/
inductive TestOutcome where
  | passed
  | failed (msg : String)
  | skipped (msg : String)
deriving DecidableEq, Repr

def TestOutcome.isFailed : TestOutcome → Bool
  | .failed _ => true
  | _ => false

/-- BaseStatMonitor.run (monitors.py lines 118-138): raises NotConfigured
(Except.error) when the monitor has neither a threshold_setting attribute
nor a get_threshold method, or when threshold_setting names a setting
absent from the crawler settings; otherwise it proceeds (super().run). The
optional threshold_setting attribute is `threshold_setting`; the presence
of a get_threshold method is `has_get_threshold`. -/
def baseStatRunValidation (threshold_setting : Option String)
    (has_get_threshold : Bool) (s : Settings) : Except String Unit :=
  if threshold_setting.isNone ∧ has_get_threshold = false then
    .error "NotConfigured: should include a threshold_setting attribute or a get_threshold method"
  else
    match threshold_setting with
    | some key =>
        if s.containsKey key then .ok ()
        else .error ("NotConfigured: Configure " ++ key ++ " to your project settings")
    | none => .ok ()

/-- BaseStatMonitor.test_stat_monitor (monitors.py lines 145-171), with
the threshold already computed (_get_threshold_value): if stat_name is
absent from the job stats, fail when fail_if_stat_missing is true and
skip otherwise; if present, assert the stat value against the threshold
using the assert_type comparison. -/
def test_stat_monitor (stat_name : String) (assert_type : AssertType)
    (fail_if_stat_missing : Bool) (threshold : Rat) (stats : Stats) :
    TestOutcome :=
  match stats.lookup stat_name with
  | none =>
      let message := "Unable to find " ++ stat_name ++ " in job stats."
      if fail_if_stat_missing then .failed message
      else .skipped message
  | some value =>
      if assertCompare assert_type value threshold then .passed
      else .failed ("Expecting " ++ stat_name ++ " to compare to the threshold")

/-- FieldCoverageMonitor.run (monitors.py lines 499-507): raises
NotConfigured unless the boolean setting SPIDERMON_ADD_FIELD_COVERAGE is
set to true (default false). -/
def fieldCoverageRunValidation (s : Settings) : Except String Unit :=
  if s.getbool "SPIDERMON_ADD_FIELD_COVERAGE" false = false then
    .error "NotConfigured: set SPIDERMON_ADD_FIELD_COVERAGE=True in your project settings"
  else .ok ()

/-- RetryCountMonitor.test_maximum_retries (monitors.py lines 359-367):
reads retry/max_reached (default 0) and SPIDERMON_MAX_RETRIES (default
-1); returns early (passes) when the threshold is negative, otherwise
asserts max_reached is at most the threshold. Stats counters are natural
numbers. -/
def test_maximum_retries (stats : List (String × Nat)) (s : Settings) :
    TestOutcome :=
  let max_reached := (stats.lookup "retry/max_reached").getD 0
  let threshold := s.getint "SPIDERMON_MAX_RETRIES" (-1)
  if threshold < 0 then .passed
  else if (max_reached : Int) ≤ threshold then .passed
  else .failed ("Too many requests reached the maximum retry amount")

/-- TotalRequestsMonitor.test_request_count_exceeded_limit (monitors.py
lines 393-400): reads downloader/request_count (default 0) and
SPIDERMON_MAX_REQUESTS_ALLOWED (default -1); returns early (passes) when
the threshold is negative, otherwise asserts the request count is at most
the threshold. -/
def test_request_count_exceeded_limit (stats : List (String × Nat))
    (s : Settings) : TestOutcome :=
  let requests := (stats.lookup "downloader/request_count").getD 0
  let threshold := s.getint "SPIDERMON_MAX_REQUESTS_ALLOWED" (-1)
  if threshold < 0 then .passed
  else if (requests : Int) ≤ threshold then .passed
  else .failed ("Too many requests")

/-! ## ZyteJobsComparisonMonitor (monitors.py lines 555-659) -/

/-- A previous job as returned by the job-listing service: a record that
may expose an item count (job.get with default 0 is used on it). -/
structure Job where
  items : Option Nat
deriving DecidableEq, Repr

/-- The item count read from a job: job.get("items", 0). -/
def Job.itemCount (j : Job) : Nat := j.items.getD 0

/-- ZyteJobsComparisonMonitor.run (monitors.py lines 583-603): raises
NotConfigured when SPIDERMON_JOBS_COMPARISON is absent or its integer
value is at most 0, or when SPIDERMON_JOBS_COMPARISON_THRESHOLD is absent
or its float value is at most 0; otherwise defers to BaseStatMonitor.run
(the class defines get_threshold and no threshold_setting attribute). -/
def zyteRunValidation (s : Settings) : Except String Unit :=
  if ¬ s.containsKey "SPIDERMON_JOBS_COMPARISON"
      ∨ s.getint "SPIDERMON_JOBS_COMPARISON" 0 ≤ 0 then
    .error "NotConfigured: Configure SPIDERMON_JOBS_COMPARISON to your project settings"
  else if ¬ s.containsKey "SPIDERMON_JOBS_COMPARISON_THRESHOLD"
      ∨ s.getfloat "SPIDERMON_JOBS_COMPARISON_THRESHOLD" 0 ≤ 0 then
    .error "NotConfigured: Configure SPIDERMON_JOBS_COMPARISON_THRESHOLD to your project settings"
  else baseStatRunValidation none true s

/-- ZyteJobsComparisonMonitor._get_jobs (monitors.py lines 605-626). The
external job-listing service is abstracted as a function from the start
offset and the requested count to the returned page. The Python loop
queries at start = 0, accumulates each non-empty page, increments start
by the constant 1000, and stops only when a query returns an empty page;
`fuel` bounds the recursion depth of the embedding (the Python loop has
no such bound). -/
def getJobsLoop (api : Nat → Nat → List Job) (number_of_jobs : Nat)
    (start : Nat) (fuel : Nat) : List Job :=
  match fuel with
  | 0 => []
  | fuel + 1 =>
      if (api start number_of_jobs).isEmpty then []
      else api start number_of_jobs
        ++ getJobsLoop api number_of_jobs (start + 1000) fuel

/-- ZyteJobsComparisonMonitor._get_jobs entry point: pagination starts at
offset 0. -/
def get_jobs (api : Nat → Nat → List Job) (number_of_jobs : Nat)
    (fuel : Nat) : List Job :=
  getJobsLoop api number_of_jobs 0 fuel

/-- ZyteJobsComparisonMonitor.get_threshold (monitors.py lines 644-659),
given the jobs returned by _get_jobs: previous_count is the sum of the
item counts divided by the number of jobs; the result is
ceil(previous_count * threshold). The Python division raises
ZeroDivisionError when the job list is empty, embedded as Except.error. -/
def get_threshold (threshold : Rat) (jobs : List Job) : Except String Int :=
  if jobs.length = 0 then .error "ZeroDivisionError"
  else
    let previous_count : Rat :=
      ((jobs.map Job.itemCount).sum : Nat) / (jobs.length : Rat)
    .ok ⌈previous_count * threshold⌉

/-! ## Example monitors (src/examples/monitors.py) -/

/-- The STATS fact set of src/examples/monitors.py lines 4-8. -/
def STATS : FactContext :=
  [("downloader/response_count", .int 63785),
   ("item_scraped_count", .int 29836),
   ("finish_reason", .str "finished")]

/-- The single rule of MONITOR_G (src/examples/monitors.py line 149): the
textual expression comparing stats.a_non_existing_key to the string
whatever. Attribute access on a key absent from the FactContext raises
KeyNotFound (spec section 3), captured here as Except.error. -/
def ruleG : RuleUnit :=
  { name := "stats.a_non_existing_key equals whatever"
    check := fun ctx =>
      match ctx.lookup "a_non_existing_key" with
      | none => .error "KeyNotFound: a_non_existing_key"
      | some v => .ok (decide (v = Val.str "whatever")) }

/-- BombAction (src/examples/monitors.py lines 141-143): its run raises
unconditionally. Registered on MONITOR_G with trigger ERROR and the name
from line 152. -/
def bombAction : ActionUnit :=
  { name := "Action on error", trigger := .error, run := .error "Boom!" }

/-- MONITOR_G (src/examples/monitors.py lines 146-154): one textual rule
and one ERROR-trigger BombAction; a plain Monitor has no configuration
validation step, so validation succeeds. -/
def MONITOR_G : MonitorSpec :=
  { validation := .ok (), rules := [ruleG], actions := [bombAction] }

/-! ## Helper lemmas -/

theorem any_iff_filter_pos (l : List Outcome) (p : Outcome → Bool) :
    l.any p = true ↔ 0 < (l.filter p).length := by
  rw [List.any_eq_true, List.length_pos_iff_exists_mem]
  constructor
  · rintro ⟨x, hx, hp⟩
    exact ⟨x, List.mem_filter.mpr ⟨hx, hp⟩⟩
  · rintro ⟨x, hx⟩
    have hm := List.mem_filter.mp hx
    exact ⟨x, hm.1, hm.2⟩

theorem triggerFires_skipped (t : Trigger) :
    triggerFires t .skipped = decide (t = .always) := by
  cases t <;> rfl

/-! ## Claim theorems -/

theorem filter_failed_errored_le (l : List Outcome) :
    (l.filter Outcome.isFailed).length + (l.filter Outcome.isErrored).length
      ≤ l.length := by
  induction l with
  | nil => simp
  | cons o t ih =>
      cases o <;>
        simp [List.filter_cons, Outcome.isFailed, Outcome.isErrored] <;>
        omega

/-- C2: for a Monitor with N rules of which K fail and M error after
evaluation, K + M is at most N and the aggregate status is Errored if M is
positive, else Failed if K is positive, else Passed. -/
theorem claim_C2 (outcomes : List Outcome) (N K M : Nat)
    (hN : outcomes.length = N)
    (hK : (outcomes.filter Outcome.isFailed).length = K)
    (hM : (outcomes.filter Outcome.isErrored).length = M) :
    K + M ≤ N ∧
    aggregate outcomes
      = if 0 < M then .errored else if 0 < K then .failed else .passed := by
  subst hN hK hM
  refine ⟨filter_failed_errored_le outcomes, ?_⟩
  unfold aggregate
  by_cases h1 : outcomes.any Outcome.isErrored = true
  · rw [if_pos h1, if_pos ((any_iff_filter_pos _ _).mp h1)]
  · rw [if_neg h1, if_neg (fun h => h1 ((any_iff_filter_pos _ _).mpr h))]
    by_cases h2 : outcomes.any Outcome.isFailed = true
    · rw [if_pos h2, if_pos ((any_iff_filter_pos _ _).mp h2)]
    · rw [if_neg h2, if_neg (fun h => h2 ((any_iff_filter_pos _ _).mpr h))]

theorem runStatus_of_validation_error (m : MonitorSpec) (ctx : FactContext)
    (h : m.validation.isOk = false) :
    Monitor.runStatus m ctx = .skipped ∧ Monitor.runOutcomes m ctx = [] := by
  cases hv : m.validation with
  | error e => exact ⟨by simp [Monitor.runStatus, hv], by simp [Monitor.runOutcomes, hv]⟩
  | ok u => rw [hv] at h; simp [Except.isOk, Except.toBool] at h

theorem baseStat_ok_of_get_threshold (s : Settings) :
    baseStatRunValidation none true s = .ok () := by
  simp [baseStatRunValidation]

/-- C3: trigger semantics of action firing — ALWAYS fires for every
aggregate status; PASSED, FAILED and ERROR fire exactly for the matching
status; a Skipped monitor fires only ALWAYS actions; an action adapted
without an explicit trigger defaults to ALWAYS; and a monitor run fires
exactly the attached actions whose trigger matches the aggregate
status. -/
theorem claim_C3 :
    (∀ st, triggerFires .always st = true)
    ∧ (∀ st, triggerFires .passed st = true ↔ st = .passed)
    ∧ (∀ st, triggerFires .failed st = true ↔ st = .failed)
    ∧ (∀ st, triggerFires .error st = true ↔ st = .errored)
    ∧ (∀ t, triggerFires t .skipped = true → t = .always)
    ∧ (∀ (n : String) (r : Except String Unit),
        (adaptAction n none r).trigger = .always)
    ∧ (∀ (m : MonitorSpec) (ctx : FactContext),
        (Monitor.runModel m ctx).firedActions
          = (m.actions.filter (fun a =>
              triggerFires a.trigger (Monitor.runModel m ctx).status)).map
              (fun a => a.name)) := by
  refine ⟨?_, ?_, ?_, ?_, ?_, ?_, ?_⟩
  · intro st; rfl
  · intro st; cases st <;> simp [triggerFires]
  · intro st; cases st <;> simp [triggerFires]
  · intro st; cases st <;> simp [triggerFires]
  · intro t; cases t <;> simp [triggerFires]
  · intro n r; rfl
  · intro m ctx; rfl

/-- Witness for C3 at concrete inputs. -/
theorem claim_C3_witness :
    triggerFires .always .skipped = true
    ∧ (triggerFires .passed .passed = true ↔ Status.passed = .passed)
    ∧ (triggerFires .error .skipped = true → Trigger.error = .always)
    ∧ (adaptAction "a" none (.ok ())).trigger = .always
    ∧ (Monitor.runModel MONITOR_G STATS).firedActions
        = (MONITOR_G.actions.filter (fun a =>
            triggerFires a.trigger (Monitor.runModel MONITOR_G STATS).status)).map
            (fun a => a.name) := by
  refine ⟨claim_C3.1 .skipped, (claim_C3.2.1 .passed), ?_, ?_, ?_⟩
  · exact claim_C3.2.2.2.2.1 .error
  · exact claim_C3.2.2.2.2.2.1 "a" (.ok ())
  · exact claim_C3.2.2.2.2.2.2 MONITOR_G STATS

/-- C4: BaseStatMonitor.test_stat_monitor with an available threshold —
when stat_name is absent from the job stats the check fails with the
Unable-to-find message if fail_if_stat_missing is true and is skipped if
it is false; when present, the check passes iff the stat value stands in
the assert_type comparison to the threshold. -/
theorem claim_C4 (stat_name : String) (a : AssertType) (threshold : Rat)
    (stats : Stats) :
    (stats.lookup stat_name = none →
        test_stat_monitor stat_name a true threshold stats
          = .failed ("Unable to find " ++ stat_name ++ " in job stats.")
        ∧ test_stat_monitor stat_name a false threshold stats
          = .skipped ("Unable to find " ++ stat_name ++ " in job stats."))
    ∧ (∀ (v : Rat), stats.lookup stat_name = some v → ∀ (b : Bool),
        (test_stat_monitor stat_name a b threshold stats = .passed
          ↔ assertCompare a v threshold = true)) := by
  constructor
  · intro h
    constructor <;> simp [test_stat_monitor, h]
  · intro v hv b
    unfold test_stat_monitor
    rw [hv]
    by_cases hc : assertCompare a v threshold = true
    · simp [hc]
    · simp [hc]

/-- Witness for C4 at concrete inputs. -/
theorem claim_C4_witness :
    test_stat_monitor "item_scraped_count" .ge true 10 []
      = .failed "Unable to find item_scraped_count in job stats."
    ∧ (test_stat_monitor "item_scraped_count" .ge true 10
          [("item_scraped_count", 12)] = .passed
        ↔ assertCompare .ge 12 10 = true) := by
  constructor
  · exact ((claim_C4 "item_scraped_count" .ge 10 []).1 rfl).1
  · exact (claim_C4 "item_scraped_count" .ge 10
      [("item_scraped_count", 12)]).2 12 rfl true

/-- C7: ZyteJobsComparisonMonitor.run raises NotConfigured iff
SPIDERMON_JOBS_COMPARISON is absent or its integer value is at most 0, or
SPIDERMON_JOBS_COMPARISON_THRESHOLD is absent or its float value is at
most 0; and when it raises, the monitor is Skipped with no rule
executed. -/
theorem claim_C7 (s : Settings) :
    ((zyteRunValidation s).isOk = false ↔
      (s.containsKey "SPIDERMON_JOBS_COMPARISON" = false
          ∨ s.getint "SPIDERMON_JOBS_COMPARISON" 0 ≤ 0)
        ∨ (s.containsKey "SPIDERMON_JOBS_COMPARISON_THRESHOLD" = false
          ∨ s.getfloat "SPIDERMON_JOBS_COMPARISON_THRESHOLD" 0 ≤ 0))
    ∧ (∀ (rules : List RuleUnit) (actions : List ActionUnit)
        (ctx : FactContext), (zyteRunValidation s).isOk = false →
        Monitor.runStatus ⟨zyteRunValidation s, rules, actions⟩ ctx = .skipped
        ∧ Monitor.runOutcomes ⟨zyteRunValidation s, rules, actions⟩ ctx = []) := by
  constructor
  · unfold zyteRunValidation
    split_ifs with h1 h2
    · simp only [Except.isOk]
      constructor
      · intro _
        left
        rcases h1 with h | h
        · exact Or.inl (by simpa using h)
        · exact Or.inr h
      · intro _; rfl
    · simp only [Except.isOk]
      constructor
      · intro _
        right
        rcases h2 with h | h
        · exact Or.inl (by simpa using h)
        · exact Or.inr h
      · intro _; rfl
    · rw [baseStat_ok_of_get_threshold s]
      simp only [Except.isOk]
      push_neg at h1 h2
      constructor
      · intro h; simp [Except.toBool] at h
      · rintro (h | h)
        · rcases h with h | h
          · exact absurd h (by simpa using h1.1)
          · exact absurd h h1.2.not_le
        · rcases h with h | h
          · exact absurd h (by simpa using h2.1)
          · exact absurd h h2.2.not_le
  · intro rules actions ctx h
    exact runStatus_of_validation_error ⟨zyteRunValidation s, rules, actions⟩ ctx h

/-- Witness for C7 at a concrete settings store (both settings absent). -/
theorem claim_C7_witness :
    ((zyteRunValidation ⟨[]⟩).isOk = false ↔
      ((Settings.containsKey ⟨[]⟩ "SPIDERMON_JOBS_COMPARISON" = false
          ∨ Settings.getint ⟨[]⟩ "SPIDERMON_JOBS_COMPARISON" 0 ≤ 0)
        ∨ (Settings.containsKey ⟨[]⟩ "SPIDERMON_JOBS_COMPARISON_THRESHOLD" = false
          ∨ Settings.getfloat ⟨[]⟩ "SPIDERMON_JOBS_COMPARISON_THRESHOLD" 0 ≤ 0)))
    ∧ Monitor.runStatus ⟨zyteRunValidation ⟨[]⟩, [], []⟩ [] = .skipped := by
  constructor
  · exact (claim_C7 ⟨[]⟩).1
  · exact ((claim_C7 ⟨[]⟩).2 [] [] [] rfl).1

/-- C9: when the first page returned by the job-listing query is empty,
_get_jobs returns the empty list and get_threshold raises
ZeroDivisionError from the unguarded division by len(jobs). -/
theorem claim_C9 (api : Nat → Nat → List Job) (count fuel : Nat) (θ : Rat)
    (h : api 0 count = []) :
    get_jobs api count fuel = []
    ∧ get_threshold θ (get_jobs api count fuel) = .error "ZeroDivisionError" := by
  have hj : get_jobs api count fuel = [] := by
    cases fuel with
    | zero => rfl
    | succ n =>
        unfold get_jobs getJobsLoop
        rw [h]
        simp
  exact ⟨hj, by rw [hj]; rfl⟩

/-- Witness for C9 at a concrete (everywhere-empty) job-listing api. -/
theorem claim_C9_witness :
    get_jobs (fun _ _ => []) 5 3 = []
    ∧ get_threshold 1 (get_jobs (fun _ _ => []) 5 3)
        = .error "ZeroDivisionError" :=
  claim_C9 (fun _ _ => []) 5 3 1 rfl

/-- C10: a negative SPIDERMON_MAX_RETRIES (default -1) makes
RetryCountMonitor pass unconditionally, and a negative
SPIDERMON_MAX_REQUESTS_ALLOWED (default -1) makes TotalRequestsMonitor
pass unconditionally, for every job stats snapshot. -/
theorem claim_C10 (stats1 stats2 : List (String × Nat)) (s1 s2 : Settings)
    (h1 : s1.getint "SPIDERMON_MAX_RETRIES" (-1) < 0)
    (h2 : s2.getint "SPIDERMON_MAX_REQUESTS_ALLOWED" (-1) < 0) :
    test_maximum_retries stats1 s1 = .passed
    ∧ test_request_count_exceeded_limit stats2 s2 = .passed := by
  constructor
  · unfold test_maximum_retries
    rw [if_pos h1]
  · unfold test_request_count_exceeded_limit
    rw [if_pos h2]

/-- Witness for C10: with empty settings both getints return the default
-1, and the tests pass on an arbitrary stats snapshot. -/
theorem claim_C10_witness :
    test_maximum_retries [("retry/max_reached", 99)] ⟨[]⟩ = .passed
    ∧ test_request_count_exceeded_limit [("downloader/request_count", 99)] ⟨[]⟩
        = .passed :=
  claim_C10 [("retry/max_reached", 99)] [("downloader/request_count", 99)]
    ⟨[]⟩ ⟨[]⟩ (by decide) (by decide)

/-- Witness for C2 at a concrete list of outcomes. -/
theorem claim_C2_witness :
    [Outcome.passed, Outcome.failed "f", Outcome.errored "e"].length = 3 ∧
    aggregate [Outcome.passed, Outcome.failed "f", Outcome.errored "e"]
      = .errored := by
  refine ⟨rfl, ?_⟩
  have h := claim_C2 [Outcome.passed, Outcome.failed "f", Outcome.errored "e"]
    3 1 1 rfl rfl rfl
  simpa using h.2

/-- C1: a monitor whose configuration validation raises NotConfigured
(BaseStatMonitor with neither threshold_setting nor get_threshold, or
with a threshold_setting absent from the crawler settings;
FieldCoverageMonitor without SPIDERMON_ADD_FIELD_COVERAGE set to true) is
marked Skipped, not Failed and not Errored; none of its rules execute; no
non-ALWAYS action fires; and sibling monitors in the suite still run. -/
theorem claim_C1 :
    (∀ s : Settings, (baseStatRunValidation none false s).isOk = false)
    ∧ (∀ (key : String) (hg : Bool) (s : Settings),
        s.containsKey key = false →
        (baseStatRunValidation (some key) hg s).isOk = false)
    ∧ (∀ s : Settings,
        s.getbool "SPIDERMON_ADD_FIELD_COVERAGE" false = false →
        (fieldCoverageRunValidation s).isOk = false)
    ∧ (∀ (m : MonitorSpec) (ctx : FactContext),
        m.validation.isOk = false →
        (Monitor.runModel m ctx).status = .skipped
        ∧ (Monitor.runModel m ctx).status ≠ .failed
        ∧ (Monitor.runModel m ctx).status ≠ .errored
        ∧ (Monitor.runModel m ctx).ruleOutcomes = []
        ∧ (Monitor.runModel m ctx).firedActions
            = (m.actions.filter (fun a => decide (a.trigger = .always))).map
                (fun a => a.name))
    ∧ (∀ (pre post : List MonitorSpec) (m : MonitorSpec) (ctx : FactContext),
        Suite.runModel (pre ++ m :: post) ctx
          = Suite.runModel pre ctx
              ++ Monitor.runModel m ctx :: Suite.runModel post ctx) := by
  refine ⟨?_, ?_, ?_, ?_, ?_⟩
  · intro s
    simp [baseStatRunValidation, Except.isOk, Except.toBool]
  · intro key hg s h
    simp [baseStatRunValidation, h, Except.isOk, Except.toBool]
  · intro s h
    simp [fieldCoverageRunValidation, h, Except.isOk, Except.toBool]
  · intro m ctx h
    obtain ⟨hs, ho⟩ := runStatus_of_validation_error m ctx h
    have hstat : (Monitor.runModel m ctx).status = .skipped := hs
    refine ⟨hstat, by rw [hstat]; simp, by rw [hstat]; simp, ho, ?_⟩
    show (m.actions.filter
        (fun a => triggerFires a.trigger (Monitor.runStatus m ctx))).map
        (fun a => a.name) = _
    rw [hs]
    have hfun : (fun a : ActionUnit => triggerFires a.trigger .skipped)
        = (fun a : ActionUnit => decide (a.trigger = .always)) :=
      funext (fun a => triggerFires_skipped a.trigger)
    rw [hfun]
  · intro pre post m ctx
    simp [Suite.runModel]

/-- Witness for C1 at concrete inputs. -/
theorem claim_C1_witness :
    (baseStatRunValidation none false ⟨[]⟩).isOk = false
    ∧ (baseStatRunValidation (some "SPIDERMON_MIN_ITEMS") false ⟨[]⟩).isOk
        = false
    ∧ (fieldCoverageRunValidation ⟨[]⟩).isOk = false
    ∧ (Monitor.runModel ⟨.error "NotConfigured", [ruleG], [bombAction]⟩
        STATS).status = .skipped
    ∧ Suite.runModel ([] ++ MONITOR_G :: []) STATS
        = Suite.runModel [] STATS
            ++ Monitor.runModel MONITOR_G STATS :: Suite.runModel [] STATS := by
  refine ⟨claim_C1.1 ⟨[]⟩, ?_, ?_, ?_, ?_⟩
  · exact claim_C1.2.1 "SPIDERMON_MIN_ITEMS" false ⟨[]⟩ rfl
  · exact claim_C1.2.2.1 ⟨[]⟩ rfl
  · exact (claim_C1.2.2.2.1 ⟨.error "NotConfigured", [ruleG], [bombAction]⟩
      STATS rfl).1
  · exact claim_C1.2.2.2.2 [] [] MONITOR_G STATS

/-- C8: MONITOR_G of the examples file, run against STATS (which lacks
a_non_existing_key): the single textual rule comes out Errored, the
aggregate status is Errored, the ERROR-trigger BombAction fires, and the
exception it raises is captured into the result instead of aborting the
run. -/
theorem claim_C8 :
    (Monitor.runModel MONITOR_G STATS).status = .errored
    ∧ (Monitor.runModel MONITOR_G STATS).ruleOutcomes
        = [.errored "KeyNotFound: a_non_existing_key"]
    ∧ (Monitor.runModel MONITOR_G STATS).firedActions = ["Action on error"]
    ∧ (Monitor.runModel MONITOR_G STATS).actionErrors
        = ["Action on error: Boom!"] := by
  refine ⟨?_, ?_, ?_, ?_⟩ <;> rfl

theorem getJobsLoop_flatten (api : Nat → Nat → List Job) (count : Nat) :
    ∀ (k start fuel : Nat),
    (∀ i < k, api (start + 1000 * i) count ≠ []) →
    api (start + 1000 * k) count = [] →
    k < fuel →
    getJobsLoop api count start fuel
      = ((List.range k).map (fun i => api (start + 1000 * i) count)).flatten := by
  intro k
  induction k with
  | zero =>
      intro start fuel _ h2 hf
      rw [Nat.mul_zero, Nat.add_zero] at h2
      cases fuel with
      | zero => omega
      | succ n =>
          unfold getJobsLoop
          rw [h2]
          simp
  | succ k ih =>
      intro start fuel h1 h2 hf
      cases fuel with
      | zero => omega
      | succ n =>
          unfold getJobsLoop
          have hne : api start count ≠ [] := by
            have h0 := h1 0 (Nat.succ_pos k)
            simpa using h0
          have hemp : (api start count).isEmpty = false := by
            cases hc : api start count
            · exact absurd hc hne
            · rfl
          rw [hemp]
          simp only [Bool.false_eq_true, if_false]
          have ihh := ih (start + 1000) n
            (fun i hi => by
              have := h1 (i + 1) (Nat.succ_lt_succ hi)
              rwa [show start + 1000 * (i + 1) = start + 1000 + 1000 * i by
                ring] at this)
            (by
              rwa [show start + 1000 + 1000 * k = start + 1000 * (k + 1) by
                ring])
            (by omega)
          have hfun : ((fun i => api (start + 1000 * i) count) ∘ Nat.succ)
              = (fun i => api (start + 1000 + 1000 * i) count) :=
            funext (fun i => by
              simp only [Function.comp]
              have harith : start + 1000 * Nat.succ i
                  = start + 1000 + 1000 * i := by omega
              rw [harith])
          rw [ihh, List.range_succ_eq_map, List.map_cons, List.flatten_cons,
            List.map_map, hfun]
          simp

theorem getJobsLoop_len (api : Nat → Nat → List Job) (count : Nat) :
    ∀ (fuel start : Nat),
    (∀ i, api (start + 1000 * i) count ≠ []) →
    fuel ≤ (getJobsLoop api count start fuel).length := by
  intro fuel
  induction fuel with
  | zero => intro start _; simp
  | succ n ih =>
      intro start h
      unfold getJobsLoop
      have hne : api start count ≠ [] := by
        have h0 := h 0
        simpa using h0
      have hemp : (api start count).isEmpty = false := by
        cases hc : api start count
        · exact absurd hc hne
        · rfl
      rw [hemp]
      simp only [Bool.false_eq_true, if_false, List.length_append]
      have hpage : 1 ≤ (api start count).length :=
        List.length_pos.mpr hne
      have hrec := ih (start + 1000)
        (fun i => by
          have := h (i + 1)
          rwa [show start + 1000 * (i + 1) = start + 1000 + 1000 * i by
            ring] at this)
      omega

/-- C5: _get_jobs paginates the job-listing service with a fixed offset
increment of 1000 per iteration while passing count = number_of_jobs to
every query, accumulates every returned page, and stops only when a query
returns an empty page — with no empty page the accumulated result grows
with the iteration bound regardless of the requested count. -/
theorem claim_C5 (api : Nat → Nat → List Job) (count k fuel : Nat)
    (h1 : ∀ i < k, api (1000 * i) count ≠ [])
    (h2 : api (1000 * k) count = [])
    (hfuel : k < fuel) :
    get_jobs api count fuel
      = ((List.range k).map (fun i => api (1000 * i) count)).flatten
    ∧ (∀ (api2 : Nat → Nat → List Job) (c f : Nat),
        (∀ i, api2 (1000 * i) c ≠ []) →
        f ≤ (get_jobs api2 c f).length) := by
  constructor
  · have hj := getJobsLoop_flatten api count k 0 fuel
      (fun i hi => by simpa using h1 i hi) (by simpa using h2) hfuel
    unfold get_jobs
    rw [hj]
    have hfun : (fun i => api (0 + 1000 * i) count)
        = (fun i => api (1000 * i) count) :=
      funext (fun i => by rw [Nat.zero_add])
    rw [hfun]
  · intro api2 c f h
    have hl := getJobsLoop_len api2 c f 0 (fun i => by simpa using h i)
    simpa [get_jobs] using hl

/-- A one-page job-listing service used as the C5 witness. -/
def apiOnePage : Nat → Nat → List Job :=
  fun start _ => if start = 0 then [⟨some 1⟩] else []

/-- Witness for C5 at the one-page service. -/
theorem claim_C5_witness :
    apiOnePage (1000 * 1) 7 = []
    ∧ get_jobs apiOnePage 7 2
        = ((List.range 1).map (fun i => apiOnePage (1000 * i) 7)).flatten := by
  refine ⟨rfl, ?_⟩
  exact (claim_C5 apiOnePage 7 1 2
    (fun i hi => by
      have : i = 0 := by omega
      subst this
      decide)
    rfl (by omega)).1

/-- C6: for a non-empty previous-job list, get_threshold returns
ceil((sum of the item counts, defaulting to 0) / (number of jobs) *
SPIDERMON_JOBS_COMPARISON_THRESHOLD), and the (assert_type greater-equal)
check on item_scraped_count passes iff the current value is at least that
threshold. -/
theorem claim_C6 (θ : Rat) (jobs : List Job) (hne : jobs ≠ [])
    (stats : Stats) (v : Rat)
    (hv : stats.lookup "item_scraped_count" = some v) :
    get_threshold θ jobs
      = .ok ⌈(((jobs.map Job.itemCount).sum : Rat) / (jobs.length : Rat)) * θ⌉
    ∧ (∀ t : Int, get_threshold θ jobs = .ok t →
        (test_stat_monitor "item_scraped_count" .ge true (t : Rat) stats
            = .passed
          ↔ v ≥ (t : Rat))) := by
  have hlen : ¬ jobs.length = 0 := fun h => hne (List.length_eq_zero.mp h)
  constructor
  · unfold get_threshold
    rw [if_neg hlen]
  · intro t _
    unfold test_stat_monitor
    rw [hv]
    by_cases hc : assertCompare .ge v (t : Rat) = true
    · have hvc : v ≥ (t : Rat) := by simpa [assertCompare] using hc
      simp [hc, hvc]
    · have hvc : ¬ v ≥ (t : Rat) := by simpa [assertCompare] using hc
      simp [hc, hvc]

/-- Witness for C6 at one previous job with 10 items, threshold factor
one half, and a current item count of 5. -/
theorem claim_C6_witness :
    ([(⟨some 10⟩ : Job)] ≠ [])
    ∧ List.lookup "item_scraped_count" [("item_scraped_count", (5 : Rat))]
        = some 5
    ∧ get_threshold (1 / 2) [(⟨some 10⟩ : Job)]
        = .ok ⌈((([(⟨some 10⟩ : Job)].map Job.itemCount).sum : Rat)
            / (([(⟨some 10⟩ : Job)].length : Rat)) * (1 / 2))⌉
    ∧ (test_stat_monitor "item_scraped_count" .ge true ((5 : Int) : Rat)
          [("item_scraped_count", (5 : Rat))] = .passed
        ↔ (5 : Rat) ≥ ((5 : Int) : Rat)) := by
  have hmain := claim_C6 (1 / 2) [(⟨some 10⟩ : Job)] (by decide)
    [("item_scraped_count", (5 : Rat))] 5 rfl
  refine ⟨by decide, rfl, hmain.1, ?_⟩
  refine hmain.2 5 ?_
  rw [hmain.1]
  norm_num [Job.itemCount, Int.ceil_eq_iff]
